import Mathlib

/-!
Verification of the `expoLogin` auth-flow core against its specification.

The development shallowly embeds the logic of `src/AuthScreen.logic.js` and
`src/auth.providers.js`:

* JavaScript strings are modelled as Lean `String`s (sequences of Unicode
  code points); where JavaScript's `String.prototype.length` (which counts
  UTF-16 code units) matters, the model computes the UTF-16 unit count
  `utf16Len` explicitly.
* The React hook state of `useAuthScreenLogic` is modelled as an explicit
  record `AuthState`; each handler (`goNext`, `submit`, `goBack`, `reset`,
  `resendOtp`, `beginEditEmail`) and each effect (the email-change reset
  effect and the debounced existence-check task) becomes a function on
  `AuthState`.  Asynchronous interleavings are modelled by exposing the
  individual steps of the debounced check (`debounceFire`, `checkResolve`,
  `checkAttemptFail`, `checkExhaust`) as separate events; an uninterrupted
  run of the retry loop is `runDebouncedCheck`.
* Backend calls are modelled by a `BackendResult` parameter (the outcome of
  the awaited provider call) and by emitting the `ProviderCall`s an
  operation performs, so that the arguments handed to the provider layer
  can be inspected.
* The provider layer's `checkEmailExists` is embedded over a small JSON
  value type `JsVal` mirroring the duck-typed response inspection of
  `auth.providers.js`.
-/

namespace AuthCore

/-! ## JavaScript string primitives -/

/-- The character class of JavaScript's `\s` (and of `String.prototype.trim`):
tab, LF, VT, FF, CR, space, NBSP, and the Unicode space separators. -/
def isJsSpace (c : Char) : Bool :=
  let n := c.val.toNat
  n == 9 || n == 10 || n == 11 || n == 12 || n == 13 || n == 32 ||
  n == 160 || n == 0x1680 || (0x2000 ≤ n && n ≤ 0x200A) ||
  n == 0x2028 || n == 0x2029 || n == 0x202F || n == 0x205F ||
  n == 0x3000 || n == 0xFEFF

/-- `String.prototype.trim`: drop leading and trailing whitespace. -/
def jsTrimList (s : List Char) : List Char :=
  ((s.dropWhile isJsSpace).reverse.dropWhile isJsSpace).reverse

/-- `String.prototype.trim` on strings. -/
def jsTrim (s : String) : String :=
  ⟨jsTrimList s.data⟩

/-- `String.prototype.toLowerCase`, modelled on the ASCII range
(`Char.toLower` lowers exactly `A`-`Z`); the emails and messages the flow
manipulates are compared only on that range. -/
def jsToLowerCase (s : String) : String :=
  ⟨s.data.map Char.toLower⟩

/-- JavaScript `String.prototype.length` counts UTF-16 code units: a code
point at or above `0x10000` (astral plane) occupies two units. -/
def utf16Len (s : String) : Nat :=
  (s.data.map (fun c => if 0x10000 ≤ c.val.toNat then 2 else 1)).sum

/-- Bool test: `pat` occurs as a contiguous sublist of `l`. -/
def listHasInfix (pat l : List Char) : Bool :=
  l.tails.any (fun suf => pat.isPrefixOf suf)

/-- Case-insensitive containment, modelling `/pat/i.test(hay)` for a literal
pattern `pat` (given lowercase). -/
def containsCI (hay pat : String) : Bool :=
  listHasInfix pat.data (jsToLowerCase hay).data

/-! ## Validators (`AuthScreen.logic.js` lines 23-52) -/

/-- `normalizeEmail`: `String(email ?? '').trim()`. -/
def normalizeEmail (s : String) : String :=
  jsTrim s

/-- Full-match semantics of the regex `/^[^\s@]+@[^\s@]+\.[^\s@]+$/`:
no whitespace anywhere, exactly one `@` which is not the first character,
and after the `@` a `.` that is neither the first nor the last character of
the domain part (the two domain segments may themselves contain dots). -/
def emailRegexMatch (t : List Char) : Bool :=
  t.all (fun c => !(isJsSpace c)) &&
  t.count '@' == 1 &&
  (let i := t.findIdx (· == '@')
   let after := t.drop (i + 1)
   decide (1 ≤ i) && ((after.drop 1).dropLast.contains '.'))

/-- `validateEmailV2`: the regex applied to `normalizeEmail(email)`. -/
def validateEmailV2 (s : String) : Bool :=
  emailRegexMatch (normalizeEmail s).data

/-- `validatePasswordV1`: `String(password ?? '').length >= 8`, where the
JavaScript `length` counts UTF-16 code units. -/
def validatePasswordV1 (s : String) : Bool :=
  decide (8 ≤ utf16Len s)

/-- `validateOtpCodeV1`: trimmed value matches `/^\d{6}$/`. -/
def validateOtpCodeV1 (s : String) : Bool :=
  let raw := jsTrim s
  raw.data.length == 6 && raw.data.all (fun c => c.isDigit)

/-- `nameIsValid` (inline in the hook): `String(name ?? '').trim().length > 0`. -/
def nameIsValid (s : String) : Bool :=
  decide (0 < (jsTrim s).data.length)

/-- `explainOtpVerifyError` on the thrown error's message (the adapter always
throws `Error` instances, so `err.message` is the message): any message
matching `/otp/i`, `/token/i`, `/invalid/i` or `/expired/i` becomes
`'Wrong code'`, anything else is passed through. -/
def explainOtpVerifyError (m : String) : String :=
  if containsCI m "otp" || containsCI m "token" ||
     containsCI m "invalid" || containsCI m "expired" then "Wrong code"
  else m

/-! ## Mode resolver (`AuthScreen.logic.js` lines 54-70) -/

/-- The `options.email` configuration object
(`{ password?: bool, otp?: bool, default?: 'password'|'otp' }`); `none`
fields are absent properties. -/
structure EmailOptions where
  otp : Option Bool
  password : Option Bool
  default : Option String
  deriving DecidableEq, Repr

/-- The `{}` fallback used when `options.email` is absent or not an object. -/
def emptyEmailOptions : EmailOptions := ⟨none, none, none⟩

/-- `resolveEmailAuthMode`: the argument is `some e` when `options.email`
is the object `e`, `none` otherwise (then the `{}` fallback applies).
Mirrors the source: `otpEnabled = email.otp !== false`,
`passwordEnabled = email.password === true`, then the if-chain. -/
def resolveEmailAuthMode (options : Option EmailOptions) : String :=
  let email := options.getD emptyEmailOptions
  let otpEnabled : Bool := email.otp != some false
  let passwordEnabled : Bool := email.password == some true
  if passwordEnabled && !otpEnabled then "password"
  else if !passwordEnabled && otpEnabled then "otp"
  else if passwordEnabled && otpEnabled then
    (if email.default == some "otp" then "otp" else "password")
  else "otp"

/-- Modelled from the spec's words (§4.1), for comparison with
`resolveEmailAuthMode`: "(1) if configuration explicitly disables the code
method and does not disable the password method → password. (2) if the code
method is enabled and the password method is not explicitly enabled → otp.
(3) if both are enabled → use the configured default, defaulting to
password when unspecified. (4) if both are explicitly disabled → otp." -/
def resolveEmailAuthModeSpec (options : Option EmailOptions) : String :=
  let email := options.getD emptyEmailOptions
  if email.otp == some false && email.password != some false then "password"
  else if email.otp != some false && email.password != some true then "otp"
  else if email.otp != some false && email.password == some true then
    (if email.default == some "otp" then "otp" else "password")
  else "otp"

/-! ## Provider layer (`auth.providers.js`) -/

/-- Duck-typed JavaScript values, as far as `auth.providers.js` inspects
them. -/
inductive JsVal where
  | vBool (b : Bool)
  | vStr (s : String)
  | vNum (n : Int)
  | vNull
  | vObj (fields : List (String × JsVal))

/-- Property access `v.k` on an object; `none` (undefined) otherwise. -/
def jsField : JsVal → String → Option JsVal
  | .vObj fields, k => (fields.find? (fun p => p.1 == k)).map (·.2)
  | _, _ => none

/-- Optional-chained property access `v?.k`. -/
def optField (v : Option JsVal) (k : String) : Option JsVal :=
  v.bind (jsField · k)

/-- `extractSupabaseErrorMessage`: falsy error values are modelled as
`none` for non-strings; the empty string is falsy in JavaScript, hence the
explicit case. -/
def extractSupabaseErrorMessage : Option JsVal → String
  | none => "Unknown error"
  | some (.vStr s) => if s == "" then "Unknown error" else s
  | some e =>
    match jsField e "message" with
    | some (.vStr m) => m
    | _ => "Unknown error"

/-- The hint string built by `explainEdgeFunctionError` for network-level
failures (the `join(' ')` of the five fragments in the source). -/
def edgeNetworkHint : String :=
  String.intercalate " "
    ["Cannot reach the Edge Function.",
     "Check:",
     "- EXPO_PUBLIC_SUPABASE_URL is exactly `https://<project-ref>.supabase.co` (no spaces, no quotes).",
     "- Restart Expo with `npx expo start -c` after changing env vars.",
     "- Device/simulator has internet access."]

/-- `explainEdgeFunctionError`.  The source also computes a `baseUrl` from
`error?.context?.supabase`, but never uses it; that dead binding is
omitted. -/
def explainEdgeFunctionError (error : Option JsVal) (data : Option JsVal) : String :=
  let status : Option Int :=
    match optField (optField error "context") "status" with
    | some (.vNum n) => some n
    | _ => none
  let fromBody : Option String :=
    match data with
    | some (.vObj _) =>
      let d := data.getD .vNull
      let serverError : Option String :=
        match jsField d "error" with | some (.vStr s) => some s | _ => none
      let hint : Option String :=
        match jsField d "hint" with | some (.vStr s) => some s | _ => none
      let role : Option String :=
        match jsField d "role" with | some (.vStr s) => some s | _ => none
      let config : Option JsVal :=
        match jsField d "config" with
        | some (.vObj fs) => some (.vObj fs)
        | _ => none
      let flagIsFalse : String → Bool := fun k =>
        match jsField (config.getD .vNull) k with
        | some (.vBool false) => true
        | _ => false
      let missing : List String :=
        (if flagIsFalse "hasSB_URL" then ["SB_URL"] else []) ++
        (if flagIsFalse "hasSB_SERVICE_ROLE_KEY" then ["SB_SERVICE_ROLE_KEY"] else []) ++
        (if flagIsFalse "hasSUPABASE_URL" then ["SUPABASE_URL"] else []) ++
        (if flagIsFalse "hasSUPABASE_SERVICE_ROLE_KEY" then ["SUPABASE_SERVICE_ROLE_KEY"] else [])
      match serverError with
      | some se =>
        some (se ++
          (match role with | some r => " (role: " ++ r ++ ")" | none => "") ++
          (if missing.isEmpty then ""
           else " (missing: " ++ String.intercalate ", " missing ++ ")") ++
          (match hint with | some h => " (" ++ h ++ ")" | none => ""))
      | none => none
    | _ => none
  match fromBody with
  | some msg => msg
  | none =>
    if status = some 404 then
      "Email check service not found. Deploy the Edge Function: is-email-registered."
    else if status = some 401 || status = some 403 then
      "Email check not authorized. Ensure your anon key is correct and the function is deployed."
    else if (match status with | some n => decide (500 ≤ n) | none => false) then
      "Email check server error. Ensure Edge Function secrets are set (recommended): SB_URL and SB_SERVICE_ROLE_KEY."
    else
      let message := extractSupabaseErrorMessage error
      if message == "Failed to send a request to the Edge Function" ||
         message == "Network request failed" ||
         containsCI message "failed to send a request" then
        edgeNetworkHint
      else message

/-- `checkEmailExists`, as a function of the invoke result
`{ data, error }`: a truthy `error` is `some e`; `data` is `none` when
null/undefined.  Resolves (`Except.ok`) only on an explicit boolean
`data.exists`; everything else rejects (`Except.error`). -/
def checkEmailExists (error : Option JsVal) (data : Option JsVal) :
    Except String Bool :=
  match error with
  | some e => .error (explainEdgeFunctionError (some e) data)
  | none =>
    match optField data "exists" with
    | some (.vBool b) => .ok b
    | _ => .error "Email check failed (invalid response)."

/-! ## Flow controller state (`useAuthScreenLogic`) -/

/-- `AUTH_STEP`. -/
inductive Step where
  | start
  | email
  | otp
  | name
  | password
  deriving DecidableEq, Repr

/-- `emailCheckStatus` values `'idle' | 'checking' | 'ready'`. -/
inductive CheckStatus where
  | idle
  | checking
  | ready
  deriving DecidableEq, Repr

/-- The hook's state: the `useState` cells plus the `emailCheckRequestId`
ref.  (`emailCheckDebounce` — the pending-timer handle — is represented at
the event level: firing a pending debounce is the `debounceFire` event.) -/
structure AuthState where
  step : Step
  name : String
  email : String
  password : String
  otpCode : String
  busy : Bool
  errorMessage : String
  emailCheckStatus : CheckStatus
  emailExists : Option Bool
  emailCheckRequestId : Nat
  otpResendSeconds : Nat
  deriving DecidableEq, Repr

/-- `initialStep`: `startAt === 'email' ? EMAIL : START`. -/
def initialStep (startAt : Option String) : Step :=
  if startAt == some "email" then .email else .start

/-- The hook's initial state. -/
def initState (startAt : Option String) : AuthState :=
  { step := initialStep startAt
    name := ""
    email := ""
    password := ""
    otpCode := ""
    busy := false
    errorMessage := ""
    emailCheckStatus := .idle
    emailExists := none
    emailCheckRequestId := 0
    otpResendSeconds := 0 }

/-- A call into the provider layer, with the arguments handed over. -/
inductive ProviderCall where
  | checkEmailExists (email : String)
  | requestOtp (email : String)
  | verifyOtp (email : String) (code : String)
  | signIn (email : String) (password : String)
  | signUp (name : String) (email : String) (password : String)
  | updateProfile (name : String)
  deriving DecidableEq, Repr

/-- The email argument a provider call carries, if any. -/
def callEmail : ProviderCall → Option String
  | .checkEmailExists e => some e
  | .requestOtp e => some e
  | .verifyOtp e _ => some e
  | .signIn e _ => some e
  | .signUp _ e _ => some e
  | .updateProfile _ => none

/-- Outcome of an awaited provider call: resolved, or rejected with an
`AuthError{message}` (the adapter throws `Error` instances only). -/
inductive BackendResult where
  | ok
  | err (message : String)
  deriving DecidableEq, Repr

/-! ## Existence-check subsystem events (lines 171-255) -/

/-- The email-change reset effect (lines 171-177): runs after a render in
which `email` or `step` changed; on the EMAIL step it clears the error and
resets the check state. -/
def emailResetEffect (st : AuthState) : AuthState :=
  if st.step = .email then
    { st with errorMessage := "", emailExists := none, emailCheckStatus := .idle }
  else st

/-- A user edit of the email field while the effects settle: `setEmail`
followed by the reset effect.  (The check effect also re-schedules the
debounce; that pending debounce firing is the separate `debounceFire`
event.)  Note that the edit does NOT touch `emailCheckRequestId`. -/
def editEmail (s : String) (st : AuthState) : AuthState :=
  emailResetEffect { st with email := s }

/-- The debounce timer firing (lines 201-206): bump the request id, mark
`'checking'`, clear the error.  Returns the request id captured by the
spawned task. -/
def debounceFire (st : AuthState) : AuthState × Nat :=
  let reqId := st.emailCheckRequestId + 1
  ({ st with emailCheckRequestId := reqId
             emailCheckStatus := .checking
             errorMessage := "" }, reqId)

/-- A successful `checkEmailExists` resolution for the task tagged `t`
(lines 213-217): dropped when `t` differs from the current request id,
otherwise records the result and marks `'ready'`. -/
def checkResolve (t : Nat) (b : Bool) (st : AuthState) : AuthState :=
  if t ≠ st.emailCheckRequestId then st
  else { st with emailExists := some b, emailCheckStatus := .ready }

/-- A failed attempt for the task tagged `t`, after its backoff sleep
(lines 218-238): dropped when stale, otherwise re-asserts `'checking'`. -/
def checkAttemptFail (t : Nat) (st : AuthState) : AuthState :=
  if t ≠ st.emailCheckRequestId then st
  else { st with emailCheckStatus := .checking }

/-- Retry exhaustion for the task tagged `t` (lines 242-244): dropped when
stale, otherwise resets to `{Idle, null}` silently. -/
def checkExhaust (t : Nat) (st : AuthState) : AuthState :=
  if t ≠ st.emailCheckRequestId then st
  else { st with emailExists := none, emailCheckStatus := .idle }

/-- Result of an uninterrupted run of the retry loop. -/
structure CheckRun where
  state : AuthState
  attempts : Nat
  delays : List Nat
  calls : List ProviderCall
  deriving Repr

/-- The retry loop (lines 207-249) run without interleaved events, for the
task tagged `t` checking email `e`: `outcomes k = some b` means the
`k`-th attempt resolves `b`, `none` means it rejects; `jitter k` is the
value of `Math.floor(Math.random() * 120)` drawn after the `k`-th failed
attempt.  `maxAttempts = 4`, `baseDelayMs = 350`; the sleep after the
`k`-th failure is `350 * (k+1) + jitter k`. -/
def checkTask (t : Nat) (e : String) (outcomes : Nat → Option Bool)
    (jitter : Nat → Nat) : Nat → Nat → AuthState → CheckRun
  | _, 0, st => ⟨checkExhaust t st, 0, [], []⟩
  | attempt, fuel + 1, st =>
    match outcomes attempt with
    | some b => ⟨checkResolve t b st, 1, [], [.checkEmailExists e]⟩
    | none =>
      let st1 := checkAttemptFail t st
      let rest := checkTask t e outcomes jitter (attempt + 1) fuel st1
      ⟨rest.state, rest.attempts + 1,
       (350 * (attempt + 1) + jitter attempt) :: rest.delays,
       .checkEmailExists e :: rest.calls⟩

/-- The whole debounced check issued from state `st`, run to completion
with no interleaved events: the effect captures
`normalizeEmail(email).toLowerCase()` (line 183), the debounce fires, and
the retry loop runs with `maxAttempts = 4`. -/
def runDebouncedCheck (st : AuthState) (outcomes : Nat → Option Bool)
    (jitter : Nat → Nat) : CheckRun :=
  let e := jsToLowerCase (normalizeEmail st.email)
  let fired := debounceFire st
  checkTask fired.2 e outcomes jitter 0 4 fired.1

/-! ## Derived state and handlers (lines 257-487) -/

/-- `canContinue` (lines 262-273), as a function of the resolved
`emailAuthMode` and the current state.  `emailIsValid`, `otpIsValid`,
`nameIsValid` and `passwordIsValid` are recomputed from the fields exactly
as the hook does (lines 257-260). -/
def canContinue (mode : String) (st : AuthState) : Bool :=
  if st.busy then false
  else if st.step == .start then true
  else if st.step == .email then
    (if mode == "otp" then validateEmailV2 st.email
     else validateEmailV2 st.email && st.emailCheckStatus == .ready)
  else if st.step == .otp then validateOtpCodeV1 st.otpCode
  else if st.step == .name then nameIsValid st.name
  else if st.step == .password then validatePasswordV1 st.password
  else false

/-- Modelled from the spec's words (§4.4 enablement table), for comparison
with `canContinue`: busy always disables; Start always enabled; Email under
`otp` requires only email validity; Email under `password` requires
validity and `Ready` status; Code requires 6-digit validity; Name requires
non-empty after trimming; Password requires length ≥ 8.  (The step type has
exactly the five listed steps, so the table is total.) -/
def canContinueSpec (mode : String) (st : AuthState) : Bool :=
  if st.busy then false
  else
    match st.step with
    | .start => true
    | .email =>
      if mode == "otp" then validateEmailV2 st.email
      else validateEmailV2 st.email && st.emailCheckStatus == .ready
    | .otp => validateOtpCodeV1 st.otpCode
    | .name => nameIsValid st.name
    | .password => validatePasswordV1 st.password

/-- `start` (lines 280-283). -/
def start (st : AuthState) : AuthState :=
  { st with errorMessage := "", step := .email }

/-- `reset` (lines 285-295). -/
def reset (startAt : Option String) (st : AuthState) : AuthState :=
  { st with errorMessage := ""
            name := ""
            email := ""
            password := ""
            otpCode := ""
            otpResendSeconds := 0
            emailExists := none
            emailCheckStatus := .idle
            step := initialStep startAt }

/-- `goBack` (lines 297-325).  `isNewUser` is `emailExists === false`
(line 143); the NAME branch consults `emailAuthMode`. -/
def goBack (mode : String) (startAt : Option String) (st : AuthState) :
    AuthState :=
  let st := { st with errorMessage := "" }
  match st.step with
  | .password =>
    { st with password := ""
              step := if st.emailExists == some false then .name else .email }
  | .name =>
    { st with name := ""
              step := if mode == "otp" then .otp else .email }
  | .otp =>
    { st with otpCode := "", otpResendSeconds := 0, step := .email }
  | .email =>
    { st with email := ""
              emailExists := none
              emailCheckStatus := .idle
              step := initialStep startAt }
  | .start => st

/-- `beginEditEmail` (lines 332-340). -/
def beginEditEmail (st : AuthState) : AuthState :=
  { st with errorMessage := ""
            password := ""
            otpCode := ""
            otpResendSeconds := 0
            emailExists := none
            emailCheckStatus := .idle
            step := .email }

/-- `resendOtp` (lines 342-361), with `r` the outcome of the awaited
`requestOtp` call.  `busy` is set for the duration of the await and cleared
in the `finally`, so the resulting state has `busy = false` again. -/
def resendOtp (mode : String) (r : BackendResult) (st : AuthState) :
    AuthState × List ProviderCall :=
  if st.busy then (st, [])
  else if mode != "otp" then (st, [])
  else if st.step != .otp then (st, [])
  else if 0 < st.otpResendSeconds then (st, [])
  else
    let st := { st with errorMessage := "" }
    let e := jsToLowerCase (normalizeEmail st.email)
    match r with
    | .ok => ({ st with otpCode := "", otpResendSeconds := 30 }, [.requestOtp e])
    | .err m => ({ st with errorMessage := m }, [.requestOtp e])

/-- `submit` (lines 454-487), with `r` the outcome of the awaited
`signUp`/`signIn` call.  `isNewUser` selects `signUp`; the call receives
`normalizeEmail(email).toLowerCase()`, the trimmed name, and the raw
password. -/
def submit (r : BackendResult) (st : AuthState) :
    AuthState × List ProviderCall :=
  if st.busy then (st, [])
  else
    let st := { st with errorMessage := "" }
    if !(validatePasswordV1 st.password) then
      ({ st with errorMessage := "Atleast 8 digit, for your security’s sake 🤗" }, [])
    else
      let e := jsToLowerCase (normalizeEmail st.email)
      let n := jsTrim st.name
      let call : ProviderCall :=
        if st.emailExists == some false then .signUp n e st.password
        else .signIn e st.password
      match r with
      | .ok => (st, [call])
      | .err m => ({ st with errorMessage := m }, [call])

/-- `goNext` (lines 363-452), with `r` the outcome of whichever provider
call the taken branch awaits (unused by the synchronous branches).  The
source's NAME/otp success branch calls `setOtpNeedsName(false)`, a function
that is nowhere defined in the file; the model treats it as a no-op. -/
def goNext (mode : String) (r : BackendResult) (st : AuthState) :
    AuthState × List ProviderCall :=
  if st.busy then (st, [])
  else
    let st := { st with errorMessage := "" }
    match st.step with
    | .start => (start st, [])
    | .email =>
      if !(validateEmailV2 st.email) then
        ({ st with errorMessage := "Input email correctly" }, [])
      else if mode == "password" then
        (if st.emailCheckStatus != .ready then
          ({ st with errorMessage := "Checking email…" }, [])
        else
          ({ st with step := if st.emailExists == some true then .password
                             else .name }, []))
      else
        let e := jsToLowerCase (normalizeEmail st.email)
        match r with
        | .ok =>
          ({ st with otpCode := "", otpResendSeconds := 30, step := .otp },
           [.requestOtp e])
        | .err m => ({ st with errorMessage := m }, [.requestOtp e])
    | .otp =>
      if !(validateOtpCodeV1 st.otpCode) then
        ({ st with errorMessage := "Enter 6-digit code" }, [])
      else
        let e := jsToLowerCase (normalizeEmail st.email)
        let code := jsTrim st.otpCode
        match r with
        | .ok => (st, [.verifyOtp e code])
        | .err m =>
          ({ st with errorMessage := explainOtpVerifyError m },
           [.verifyOtp e code])
    | .name =>
      if !(nameIsValid st.name) then
        ({ st with errorMessage := "Please enter your name" }, [])
      else if mode == "otp" then
        let n := jsTrim st.name
        match r with
        | .ok => (st, [.updateProfile n])
        | .err m => ({ st with errorMessage := m }, [.updateProfile n])
      else
        ({ st with step := .password }, [])
    | .password => submit r st

/-! ## Shared trace (the stale-resolution race) -/

/-- The state after: start at the Email step, type `a@x.com`, let the
debounce fire (the check for `a@x.com` is now in flight with request id 1),
paired with that request id. -/
def raceAfterFire : AuthState × Nat :=
  debounceFire (editEmail "a@x.com" (initState (some "email")))

/-- Continue the trace: edit the email to `b@x.com` (reset effect runs, the
old check is still in flight), then the in-flight check for `a@x.com`
resolves `true`. -/
def raceAfterStaleResolve : AuthState :=
  checkResolve raceAfterFire.2 true (editEmail "b@x.com" raceAfterFire.1)

/-- Concrete Email-step state of a flow configured with `startAt: 'email'`. -/
def emailStepState : AuthState :=
  { initState (some "email") with email := "a@b.cd" }

/-- Concrete Code-step state with a valid 6-digit code. -/
def otpStepState : AuthState :=
  { initState none with step := .otp, email := "u@x.com", otpCode := "123456" }

/-- The §3 invariant: `exists` is non-null only when `status = Ready`. -/
def checkInv (st : AuthState) : Prop :=
  ∀ b, st.emailExists = some b → st.emailCheckStatus = .ready

/-- Continue the race trace for C9: after the stale resolution has been
applied, the debounce scheduled by the edit to `b@x.com` fires. -/
def raceAfterSecondFire : AuthState :=
  (debounceFire raceAfterStaleResolve).1

/-- Concrete Email-step state with an email that differs from its trimmed
lowercase form. -/
def rawEmailState : AuthState :=
  { initState none with step := .email, email := " U@X.com " }

/-! ## Claim theorems -/

/-- Claim C2, counterexample: with configuration `{email: {otp: false}}`
(code method explicitly disabled, password method not disabled), the code
returns `'otp'` while the spec's rule (1) requires `'password'`. -/
theorem resolveEmailAuthMode_rule1_cex :
    resolveEmailAuthMode (some ⟨some false, none, none⟩) = "otp" ∧
    resolveEmailAuthModeSpec (some ⟨some false, none, none⟩) = "password" ∧
    ("otp" : String) ≠ "password" := by
  refine ⟨rfl, rfl, by decide⟩

/-- Claim C2, amended: `resolveEmailAuthMode` treats the password method as
enabled only when it is explicitly `true`.  The corrected rules: (1) code
explicitly disabled and password explicitly enabled → `'password'`;
(2) code enabled and password not explicitly enabled → `'otp'`; (3) code
enabled and password explicitly enabled → the configured default, and
`'password'` whenever the default is not `'otp'`; (4) code explicitly
disabled and password not explicitly enabled → `'otp'`. -/
theorem resolveEmailAuthMode_amended (o : Option EmailOptions) :
    (((o.getD emptyEmailOptions).otp = some false ∧
        (o.getD emptyEmailOptions).password = some true) →
      resolveEmailAuthMode o = "password") ∧
    (((o.getD emptyEmailOptions).otp ≠ some false ∧
        (o.getD emptyEmailOptions).password ≠ some true) →
      resolveEmailAuthMode o = "otp") ∧
    (((o.getD emptyEmailOptions).otp ≠ some false ∧
        (o.getD emptyEmailOptions).password = some true) →
      resolveEmailAuthMode o =
        (if (o.getD emptyEmailOptions).default = some "otp" then "otp"
         else "password")) ∧
    (((o.getD emptyEmailOptions).otp = some false ∧
        (o.getD emptyEmailOptions).password ≠ some true) →
      resolveEmailAuthMode o = "otp") := by
  refine ⟨?_, ?_, ?_, ?_⟩ <;> rintro ⟨h1, h2⟩ <;>
    simp [resolveEmailAuthMode, h1, h2]

/-- Claim C2, witness: the amended rule (3) at a concrete configuration. -/
theorem resolveEmailAuthMode_amended_witness :
    resolveEmailAuthMode (some ⟨none, some true, some "otp"⟩) = "otp" := by
  have h := (resolveEmailAuthMode_amended (some ⟨none, some true, some "otp"⟩)).2.2.1
    ⟨by decide, rfl⟩
  simpa using h

/-- Claim C3: `canContinue` equals the spec's enablement table (busy always
disables; Start always enabled; Email under `otp` requires email validity;
Email under `password` requires validity and `Ready` status; Code requires
6-digit validity; Name requires non-emptiness after trimming; Password
requires length ≥ 8; the step type has no further steps). -/
theorem canContinue_matches_table (mode : String) (st : AuthState)
    (h : mode = "password" ∨ mode = "otp") :
    canContinue mode st = canContinueSpec mode st := by
  rcases st with ⟨step, nm, em, pw, oc, bz, er, ecs, eex, rid, ors⟩
  rcases h with h | h <;> subst h <;> cases step <;>
    simp [canContinue, canContinueSpec]

/-- Claim C3, witness: the table at a concrete state under the `otp`
strategy. -/
theorem canContinue_matches_table_witness :
    canContinue "otp" (initState none) = canContinueSpec "otp" (initState none) :=
  canContinue_matches_table "otp" (initState none) (Or.inr rfl)

/-- Claim C8, counterexample: `"𝕒𝕒𝕒𝕒"` has 4 Unicode code points (so the
claim requires `false`), but each is an astral code point occupying two
UTF-16 units, so `String(s).length` is 8 and `validatePasswordV1` returns
`true`. -/
theorem validatePasswordV1_codepoints_cex :
    validatePasswordV1 "𝕒𝕒𝕒𝕒" = true ∧ "𝕒𝕒𝕒𝕒".length < 8 := by decide

/-- Helper: on strings whose code points are all below `0x10000` (BMP), the
UTF-16 unit count coincides with the code-point count. -/
theorem utf16Len_eq_length_of_bmp :
    ∀ (l : List Char), (∀ c ∈ l, c.val.toNat < 0x10000) →
      (l.map (fun c => if 0x10000 ≤ c.val.toNat then 2 else 1)).sum = l.length := by
  intro l h
  induction l with
  | nil => rfl
  | cons c rest ih =>
    have hc : c.val.toNat < 0x10000 := h c (by simp)
    have hrest := ih (fun d hd => h d (by simp [hd]))
    simp [List.map_cons, List.sum_cons, hrest, Nat.not_le.mpr hc]
    omega

/-- Claim C8, amended: `validatePasswordV1 s` is true iff `s` has at least
8 UTF-16 code units (astral code points count twice); on strings of BMP
code points only this coincides with at least 8 code points. -/
theorem validatePasswordV1_utf16_amended (s : String) :
    (validatePasswordV1 s = true ↔ 8 ≤ utf16Len s) ∧
    ((∀ c ∈ s.data, c.val.toNat < 0x10000) →
      (validatePasswordV1 s = true ↔ 8 ≤ s.length)) := by
  constructor
  · simp [validatePasswordV1]
  · intro h
    have hlen : utf16Len s = s.length := utf16Len_eq_length_of_bmp s.data h
    simp only [validatePasswordV1, decide_eq_true_eq, hlen]

/-- Claim C8, witness: the amended BMP case at a concrete password. -/
theorem validatePasswordV1_utf16_amended_witness :
    validatePasswordV1 "password1" = true :=
  ((validatePasswordV1_utf16_amended "password1").2 (by decide)).mpr (by decide)

/-- Claim C1 (code defect, evaluated): in the interleaving "set email to
`a@x.com`, check goes in flight, edit email to `b@x.com`, first check
resolves `true`", the resolution of the superseded check IS applied: the
edit does not bump `emailCheckRequestId` (only the next debounce firing
does, 500ms later), so the stale task's guard `reqId !==
emailCheckRequestId.current` passes and the discarded check's value becomes
the current `emailExists`, with status `'ready'`, while the field already
holds `b@x.com`. -/
theorem staleResolution_applied_at_race :
    raceAfterStaleResolve.email = "b@x.com" ∧
    raceAfterStaleResolve.emailExists = some true ∧
    raceAfterStaleResolve.emailCheckStatus = CheckStatus.ready := by decide

/-- Claim C4: if every attempt of an issued existence check fails and no
event interleaves (in particular no email edit), the retry loop makes
exactly 4 attempts; the sleep after the `k`-th failed attempt is
`350 × k + jitter` (so consecutive attempts are separated by an increasing
backoff with base delay 350ms); and the final state has status `Idle`,
`exists = null`, and an empty user-visible error message. -/
theorem existenceCheck_retry_exhaustion (st : AuthState) (jitter : Nat → Nat) :
    (runDebouncedCheck st (fun _ => none) jitter).attempts = 4 ∧
    (runDebouncedCheck st (fun _ => none) jitter).delays =
      [350 * 1 + jitter 0, 350 * 2 + jitter 1,
       350 * 3 + jitter 2, 350 * 4 + jitter 3] ∧
    (runDebouncedCheck st (fun _ => none) jitter).state.emailCheckStatus = .idle ∧
    (runDebouncedCheck st (fun _ => none) jitter).state.emailExists = none ∧
    (runDebouncedCheck st (fun _ => none) jitter).state.errorMessage = "" := by
  simp [runDebouncedCheck, debounceFire, checkTask, checkAttemptFail, checkExhaust]

/-- Claim C6: `checkEmailExists` resolves with a boolean only when the
response data carries an explicit boolean `exists` field; when that field
is absent or non-boolean, and when the backend reports an error, it rejects
instead of inferring an answer. -/
theorem checkEmailExists_fail_closed (error data : Option JsVal) :
    (∀ b, checkEmailExists error data = .ok b →
        error = none ∧ optField data "exists" = some (.vBool b)) ∧
    (∀ e, error = some e →
        ∃ msg, checkEmailExists error data = .error msg) ∧
    ((∀ b, optField data "exists" ≠ some (.vBool b)) →
        ∃ msg, checkEmailExists error data = .error msg) := by
  refine ⟨?_, ?_, ?_⟩
  · intro b hb
    cases herr : error with
    | some e => simp [checkEmailExists, herr] at hb
    | none =>
      subst herr
      refine ⟨rfl, ?_⟩
      cases hf : optField data "exists" with
      | none => simp [checkEmailExists, hf] at hb
      | some v =>
        cases v <;> simp [checkEmailExists, hf] at hb
        simp [hb]
  · intro e he
    subst he
    exact ⟨_, rfl⟩
  · intro hnb
    cases herr : error with
    | some e => exact ⟨_, rfl⟩
    | none =>
      cases hf : optField data "exists" with
      | none =>
        exact ⟨"Email check failed (invalid response).",
               by simp [checkEmailExists, hf]⟩
      | some v =>
        cases v with
        | vBool b => exact absurd hf (hnb b)
        | vStr s =>
          exact ⟨"Email check failed (invalid response).",
                 by simp [checkEmailExists, hf]⟩
        | vNum n =>
          exact ⟨"Email check failed (invalid response).",
                 by simp [checkEmailExists, hf]⟩
        | vNull =>
          exact ⟨"Email check failed (invalid response).",
                 by simp [checkEmailExists, hf]⟩
        | vObj fs =>
          exact ⟨"Email check failed (invalid response).",
                 by simp [checkEmailExists, hf]⟩

/-- Claim C6, witness: a response with a non-boolean `exists` field is
rejected. -/
theorem checkEmailExists_fail_closed_witness :
    ∃ msg, checkEmailExists none (some (.vObj [("exists", .vStr "yes")])) =
      .error msg :=
  (checkEmailExists_fail_closed none (some (.vObj [("exists", .vStr "yes")]))).2.2
    (by intro b h; simp [optField, jsField] at h)

/-- Claim C7, counterexample: with `startAt: 'email'`, `goBack` from the
Email step sets the step to `initialStep`, which is Email, not Start. -/
theorem goBack_email_startAt_email_cex :
    (goBack "password" (some "email") emailStepState).step = Step.email ∧
    Step.email ≠ Step.start := by decide

/-- Claim C7, amended: `goBack` from the Email step transitions to the
flow's configured initial step — Start unless `startAt` is `'email'`, in
which case Email — and clears the email field and resets the
existence-check state to `{Idle, null}`. -/
theorem goBack_email_amended (mode : String) (startAt : Option String)
    (st : AuthState) (h : st.step = .email) :
    (goBack mode startAt st).step = initialStep startAt ∧
    (goBack mode startAt st).email = "" ∧
    (goBack mode startAt st).emailCheckStatus = .idle ∧
    (goBack mode startAt st).emailExists = none := by
  simp [goBack, h]

/-- Claim C7, witness: the amended transition at a concrete state with the
default `startAt`. -/
theorem goBack_email_amended_witness :
    (goBack "otp" none { initState none with step := .email }).step = Step.start :=
  (goBack_email_amended "otp" none { initState none with step := .email } rfl).1

/-- Claim C5, counterexample: on code verification the adapter-normalized
message `"Token has expired or is invalid"` is NOT surfaced verbatim — the
controller routes it through `explainOtpVerifyError`, which rewrites it to
`"Wrong code"`. -/
theorem otpVerify_error_not_verbatim_cex :
    (goNext "otp" (.err "Token has expired or is invalid") otpStepState).1.errorMessage
      = "Wrong code" ∧
    ("Wrong code" : String) ≠ "Token has expired or is invalid" := by decide

/-- Claim C5, amended: on a rejected terminal-step backend call the step
does not change and the name, email, password and code fields are left
intact; the password-strategy submit surfaces the adapter message verbatim,
while code verification surfaces `explainOtpVerifyError` of it (`'Wrong
code'` for messages matching otp/token/invalid/expired case-insensitively,
verbatim otherwise). -/
theorem terminal_error_surfacing_amended (st : AuthState) (m : String)
    (hb : st.busy = false) :
    (validatePasswordV1 st.password = true →
      ((submit (.err m) st).1.errorMessage = m ∧
       (submit (.err m) st).1.step = st.step ∧
       (submit (.err m) st).1.name = st.name ∧
       (submit (.err m) st).1.email = st.email ∧
       (submit (.err m) st).1.password = st.password ∧
       (submit (.err m) st).1.otpCode = st.otpCode)) ∧
    (st.step = .otp → validateOtpCodeV1 st.otpCode = true →
      ((goNext "otp" (.err m) st).1.errorMessage = explainOtpVerifyError m ∧
       (goNext "otp" (.err m) st).1.step = st.step ∧
       (goNext "otp" (.err m) st).1.name = st.name ∧
       (goNext "otp" (.err m) st).1.email = st.email ∧
       (goNext "otp" (.err m) st).1.password = st.password ∧
       (goNext "otp" (.err m) st).1.otpCode = st.otpCode)) := by
  constructor
  · intro hpw
    simp [submit, hb, hpw]
  · intro hstep hcode
    simp [goNext, hb, hstep, hcode]

/-- Claim C5, witness: the amended behavior at a concrete Password-step
state with a message the rewrite does not match. -/
theorem terminal_error_surfacing_amended_witness :
    (submit (.err "Invalid login credentials")
      { initState none with step := .password, password := "longenough" }).1.errorMessage
      = "Invalid login credentials" :=
  ((terminal_error_surfacing_amended
      { initState none with step := .password, password := "longenough" }
      "Invalid login credentials" rfl).1 (by decide)).1

/-! ## Claim C9: the existence-check invariant -/

/-- Claim C9, counterexample: a state reachable by the model's events
(`editEmail "a@x.com"`, `debounceFire`, `editEmail "b@x.com"`,
`checkResolve` of the stale task, `debounceFire`) carries a non-null
`emailExists` with status `'checking'`: the debounced-check start mutates
the status without clearing `emailExists`, so the invariant does not hold
in every reachable observable state. -/
theorem checkInv_reachable_violation_cex :
    raceAfterSecondFire.emailExists = some true ∧
    raceAfterSecondFire.emailCheckStatus ≠ CheckStatus.ready := by decide

/-- Claim C9, amended: the invariant holds in the initial state and is
preserved by each of the listed operations (email-edit reset, debounced
check success, retry exhaustion, reset, goBack, beginEditEmail) — but the
list is not exhaustive: the debounced-check start (`debounceFire`) also
mutates the existence-check state and does not preserve the invariant, so
the invariant does not extend to all reachable states. -/
theorem checkInv_preserved_by_listed_ops (mode : String)
    (startAt : Option String) (s : String) (t : Nat) (b : Bool)
    (st : AuthState) (h : checkInv st) :
    checkInv (initState startAt) ∧
    checkInv (editEmail s st) ∧
    checkInv (checkResolve t b st) ∧
    checkInv (checkExhaust t st) ∧
    checkInv (reset startAt st) ∧
    checkInv (goBack mode startAt st) ∧
    checkInv (beginEditEmail st) := by
  refine ⟨?_, ?_, ?_, ?_, ?_, ?_, ?_⟩
  · intro b hb
    simp [initState] at hb
  · intro b' hb'
    by_cases hstep : st.step = Step.email
    · simp [editEmail, emailResetEffect, hstep] at hb'
    · simp [editEmail, emailResetEffect, hstep] at hb' ⊢
      exact h b' hb'
  · intro b' hb'
    by_cases ht : t ≠ st.emailCheckRequestId
    · simp [checkResolve, ht] at hb' ⊢
      exact h b' hb'
    · simp [checkResolve, ht] at hb' ⊢
  · intro b' hb'
    by_cases ht : t ≠ st.emailCheckRequestId
    · simp [checkExhaust, ht] at hb' ⊢
      exact h b' hb'
    · simp [checkExhaust, ht] at hb'
  · intro b' hb'
    simp [reset] at hb'
  · intro b' hb'
    rcases st with ⟨step, nm, em, pw, oc, bz, er, ecs, eex, rid, ors⟩
    cases step <;> simp [goBack] at hb' ⊢ <;> exact h b' hb'
  · intro b' hb'
    simp [beginEditEmail] at hb'

/-- Claim C9, witness: preservation applied at a concrete state satisfying
the invariant (a completed check), for the `checkResolve` operation with a
stale token. -/
theorem checkInv_preserved_by_listed_ops_witness :
    (checkResolve 5 true { initState none with
        emailExists := some true, emailCheckStatus := .ready }).emailCheckStatus
      = CheckStatus.ready :=
  (checkInv_preserved_by_listed_ops "otp" none "x" 5 true
      { initState none with emailExists := some true, emailCheckStatus := .ready }
      (fun _ _ => rfl)).2.2.1 true (by decide)

/-! ## Claim C10: every provider call carries the normalized email -/

/-- Helper: every call the retry loop emits is `checkEmailExists` with the
email captured at effect time. -/
theorem checkTask_calls_fixed (t : Nat) (e : String)
    (outcomes : Nat → Option Bool) (jitter : Nat → Nat) :
    ∀ (fuel attempt : Nat) (st : AuthState) (c : ProviderCall),
      c ∈ (checkTask t e outcomes jitter attempt fuel st).calls →
      c = .checkEmailExists e := by
  intro fuel
  induction fuel with
  | zero =>
    intro attempt st c hc
    simp [checkTask] at hc
  | succ f ih =>
    intro attempt st c hc
    cases ho : outcomes attempt with
    | some b =>
      simp [checkTask, ho] at hc
      exact hc
    | none =>
      simp [checkTask, ho] at hc
      rcases hc with hc | hc
      · exact hc
      · exact ih (attempt + 1) (checkAttemptFail t st) c hc

/-- Claim C10: every provider call emitted by `goNext`, `submit`,
`resendOtp` or the debounced existence check that carries an email carries
`normalizeEmail(email).toLowerCase()` of the email field at operation
start — the raw field value is never passed when it differs from that
normal form. -/
theorem provider_calls_email_normalized (mode : String) (r : BackendResult)
    (st : AuthState) (outcomes : Nat → Option Bool) (jitter : Nat → Nat)
    (c : ProviderCall) (e : String)
    (hc : c ∈ (goNext mode r st).2 ∨ c ∈ (submit r st).2 ∨
          c ∈ (resendOtp mode r st).2 ∨
          c ∈ (runDebouncedCheck st outcomes jitter).calls)
    (he : callEmail c = some e) :
    e = jsToLowerCase (normalizeEmail st.email) := by
  have hsubmit : ∀ c', c' ∈ (submit r st).2 → callEmail c' = some e →
      e = jsToLowerCase (normalizeEmail st.email) := by
    intro c' hc' he'
    by_cases hb : st.busy
    · simp [submit, hb] at hc'
    · by_cases hpw : validatePasswordV1 st.password
      · by_cases hnew : st.emailExists == some false <;>
          cases r <;>
          simp [submit, hb, hpw, hnew] at hc' <;>
          subst hc' <;>
          simp [callEmail] at he' <;>
          exact he'.symm
      · simp [submit, hb, hpw] at hc'
  rcases hc with hc | hc | hc | hc
  · by_cases hb : st.busy
    · simp [goNext, hb] at hc
    · rcases hstep : st.step with _ | _ | _ | _ | _
      · simp [goNext, hb, hstep, start] at hc
      · by_cases hval : validateEmailV2 st.email
        · by_cases hmode : mode == "password"
          · by_cases hready : st.emailCheckStatus != CheckStatus.ready <;>
              simp [goNext, hb, hstep, hval, hmode, hready] at hc
          · cases r <;> simp [goNext, hb, hstep, hval, hmode] at hc <;>
              subst hc <;> simp [callEmail] at he <;> exact he.symm
        · simp [goNext, hb, hstep, hval] at hc
      · by_cases hval : validateOtpCodeV1 st.otpCode
        · cases r <;> simp [goNext, hb, hstep, hval] at hc <;>
            subst hc <;> simp [callEmail] at he <;> exact he.symm
        · simp [goNext, hb, hstep, hval] at hc
      · by_cases hval : nameIsValid st.name
        · by_cases hmode : mode == "otp"
          · cases r <;> simp [goNext, hb, hstep, hval, hmode] at hc <;>
              subst hc <;> simp [callEmail] at he
          · simp [goNext, hb, hstep, hval, hmode] at hc
        · simp [goNext, hb, hstep, hval] at hc
      · by_cases hpw : validatePasswordV1 st.password
        · by_cases hnew : st.emailExists == some false <;>
            cases r <;>
            simp [goNext, submit, hb, hstep, hpw, hnew] at hc <;>
            subst hc <;>
            simp [callEmail] at he <;>
            exact he.symm
        · simp [goNext, submit, hb, hstep, hpw] at hc
  · exact hsubmit c hc he
  · by_cases hb : st.busy
    · simp [resendOtp, hb] at hc
    · by_cases hmode : mode != "otp"
      · simp [resendOtp, hb, hmode] at hc
      · by_cases hstep : st.step != Step.otp
        · simp [resendOtp, hb, hmode, hstep] at hc
        · by_cases hsec : 0 < st.otpResendSeconds
          · simp [resendOtp, hb, hmode, hstep, hsec] at hc
          · cases r <;> simp [resendOtp, hb, hmode, hstep, hsec] at hc <;>
              subst hc <;> simp [callEmail] at he <;> exact he.symm
  · have := checkTask_calls_fixed (debounceFire st).2
      (jsToLowerCase (normalizeEmail st.email)) outcomes jitter 4 0
      (debounceFire st).1 c (by simpa [runDebouncedCheck] using hc)
    subst this
    simp [callEmail] at he
    exact he.symm

/-- Claim C10, witness: the normalization applied at a concrete emitted
call. -/
theorem provider_calls_email_normalized_witness :
    ("u@x.com" : String) = jsToLowerCase (normalizeEmail rawEmailState.email) :=
  provider_calls_email_normalized "otp" .ok rawEmailState (fun _ => none)
    (fun _ => 0) (.requestOtp "u@x.com") "u@x.com" (Or.inl (by decide)) rfl

end AuthCore
